import Mathlib

/-
Verification development for the account health core of claude-relay-service:
the auto-disable path (accountAutoDisableService.handleErrorResponse), the
periodic recovery scanner (autoRecoveryService.runRecoveryCheck /
checkAccountType / _validateAccountData / _cleanupInconsistentAccount), the
shared re-admission routine (_recoverAccount), the manual recovery entry
point (recoverAccountFromTest), and the start/stop lifecycle.

The account record store and the Redis-backed disabled-account index are
modelled as explicit state (a per-type record map and a per-type id list
with set semantics).  Store and index failures that the JavaScript code can
observe as thrown exceptions are modelled by explicit fault flags threaded
into each operation; a thrown exception is a `CallResult.thrown` value (or
an `Option String` error) carrying the state as it was at the throw point,
so that partially applied writes are preserved exactly as in the source.
-/

namespace CRS

/-- Structured diagnostic payload stored in `autoDisabledDetails`
(JSON.stringify of statusCode / errorMessage / apiUrl / triggerType /
disabledAt in the source). -/
structure Details where
  statusCode : Nat
  errorMessage : String
  apiUrl : String
  triggerType : String
  disabledAt : String
deriving DecidableEq, Repr

/-- One account record as persisted by the per-type account services.
Timestamps are ISO strings; a `none` field is an absent field. -/
structure Account where
  schedulable : Bool
  autoDisabledAt : Option String
  autoDisabledReason : Option String
  autoDisabledDetails : Option Details
  lastAutoRecoveryAttempt : Option String
  autoRecoveredAt : Option String
deriving DecidableEq, Repr

/-- JavaScript truthiness of an optional string field: absent (`null` /
`undefined`) and the empty string are falsy, every other string truthy. -/
def jsTruthy : Option String → Bool
  | none => false
  | some s => !(s == "")

/-- The provider types recognized by the switch statements in
`_updateAccountByType` / `_getAccountByType` and enumerated by
`runRecoveryCheck`. -/
def accountTypes : List String :=
  ["claude-official", "claude-console", "gemini", "bedrock",
   "azure-openai", "droid", "ccr", "openai-responses"]

/-- Whether `t` is one of the recognized provider types (the non-default
cases of the dispatch switch). -/
def isKnownType (t : String) : Bool :=
  t == "claude-official" || t == "claude-console" || t == "gemini" ||
  t == "bedrock" || t == "azure-openai" || t == "droid" || t == "ccr" ||
  t == "openai-responses"

/-- A partial update object passed to `updateAccount`.  The outer `Option`
is field presence in the update; for nullable fields the inner `Option`
distinguishes setting a value from clearing the field (`null` in the
source). -/
structure AccountUpdates where
  schedulable : Option Bool := none
  autoDisabledAt : Option (Option String) := none
  autoDisabledReason : Option (Option String) := none
  autoDisabledDetails : Option (Option Details) := none
  lastAutoRecoveryAttempt : Option (Option String) := none
  autoRecoveredAt : Option (Option String) := none
deriving DecidableEq, Repr

/-- Modelled from the spec: the per-type account services
(`claudeAccountService.updateAccount` and its seven siblings) are outside
the provided sources; per the spec's record-store contract an update
applies exactly the listed fields to the stored record, a `null` value
clearing the field to absent. -/
def applyUpdates (u : AccountUpdates) (a : Account) : Account :=
  { schedulable := u.schedulable.getD a.schedulable
    autoDisabledAt := u.autoDisabledAt.getD a.autoDisabledAt
    autoDisabledReason := u.autoDisabledReason.getD a.autoDisabledReason
    autoDisabledDetails := u.autoDisabledDetails.getD a.autoDisabledDetails
    lastAutoRecoveryAttempt := u.lastAutoRecoveryAttempt.getD a.lastAutoRecoveryAttempt
    autoRecoveredAt := u.autoRecoveredAt.getD a.autoRecoveredAt }

/-- Shared mutable state: per-type account record stores (keyed by provider
type, then account id) and the per-type disabled-account index
(`auto_disabled_accounts:<providerType>` Redis sets, modelled as lists
with set semantics). -/
structure SysState where
  records : String → String → Option Account
  index : String → List String

/-- `redis.sadd('auto_disabled_accounts:' ++ ty, id)`: set add. -/
def sadd (st : SysState) (ty id : String) : SysState :=
  { st with index := fun t =>
      if t = ty then
        (if id ∈ st.index ty then st.index ty else st.index ty ++ [id])
      else st.index t }

/-- `redis.srem('auto_disabled_accounts:' ++ ty, id)`: set remove. -/
def srem (st : SysState) (ty id : String) : SysState :=
  { st with index := fun t =>
      if t = ty then (st.index ty).filter (fun x => x ≠ id) else st.index t }

/-- Apply a partial update to the record stored for `(ty, id)`; an absent
record stays absent. -/
def updateRecord (st : SysState) (ty id : String) (u : AccountUpdates) : SysState :=
  { st with records := fun t i =>
      if t = ty ∧ i = id then (st.records ty id).map (applyUpdates u)
      else st.records t i }

/-- `_updateAccountByType(accountId, accountType, updates)`: dispatch by
provider type; the default switch case throws `Unknown account type`.
`updateFails` injects a record-store failure (thrown by the underlying
`updateAccount`). -/
def _updateAccountByType (updateFails : Bool) (st : SysState)
    (accountId accountType : String) (u : AccountUpdates) :
    Except String SysState :=
  if isKnownType accountType then
    if updateFails then .error "update failed"
    else .ok (updateRecord st accountType accountId u)
  else .error ("Unknown account type: " ++ accountType)

/-- Result of a possibly-throwing call: a normal value or a thrown
exception message. -/
inductive CallResult (α : Type) where
  | ok (v : α)
  | thrown (msg : String)
deriving DecidableEq, Repr

/-- Return shape of `handleErrorResponse`:
`\x7b disabled, reason?, error? \x7d`. -/
structure DisableResult where
  disabled : Bool
  reason : Option String := none
  error : Option String := none
deriving DecidableEq, Repr

/-- The `autoDisabledReason` string built by `handleErrorResponse`:
`HTTP <statusCode>: <errorMessage.substring(0, 200)>`. -/
def disableReason (statusCode : Nat) (errorMessage : String) : String :=
  "HTTP " ++ toString statusCode ++ ": " ++ errorMessage.take 200

/-- The `updates` object prepared by `handleErrorResponse` on a qualifying
status code. -/
def disableUpdates (statusCode : Nat) (errorMessage apiUrl triggerType now : String) :
    AccountUpdates :=
  { schedulable := some false
    autoDisabledAt := some (some now)
    autoDisabledReason := some (some (disableReason statusCode errorMessage))
    autoDisabledDetails :=
      some (some ⟨statusCode, errorMessage, apiUrl, triggerType, now⟩) }

/-- Fault environment for one `handleErrorResponse` call. -/
structure DisableFaults where
  updateFails : Bool := false
  saddFails : Bool := false
deriving DecidableEq, Repr

/-- `handleErrorResponse` as in the design document
(docs part_001 lines 84-120): gate on `statusCode < 400 || statusCode >= 600`,
build updates, update the record via `_updateAccountByType`, then
`redis.sadd`; exceptions propagate to the caller, carrying any state
already written. -/
def handleErrorResponseRaw (f : DisableFaults) (st : SysState)
    (accountId accountType : String) (statusCode : Nat)
    (errorMessage apiUrl triggerType now : String) :
    SysState × CallResult DisableResult :=
  if statusCode < 400 ∨ 600 ≤ statusCode then
    (st, .ok { disabled := false })
  else
    match _updateAccountByType f.updateFails st accountId accountType
        (disableUpdates statusCode errorMessage apiUrl triggerType now) with
    | .error m => (st, .thrown m)
    | .ok st1 =>
      if f.saddFails then (st1, .thrown "sadd failed")
      else
        (sadd st1 accountType accountId,
         .ok { disabled := true,
               reason := some (disableReason statusCode errorMessage) })

/-- `handleErrorResponse` as in the implementation plan
(testPayloadHelper.js doc lines 434-478): same body, with the record update
and index add wrapped in try/catch; a caught error is reported as
`\x7b disabled: false, error \x7d`. -/
def handleErrorResponse (f : DisableFaults) (st : SysState)
    (accountId accountType : String) (statusCode : Nat)
    (errorMessage apiUrl triggerType now : String) :
    SysState × DisableResult :=
  match handleErrorResponseRaw f st accountId accountType statusCode
      errorMessage apiUrl triggerType now with
  | (st', .ok r) => (st', r)
  | (st', .thrown m) => (st', { disabled := false, error := some m })

/-- Fault environment for one `_recoverAccount` call. -/
structure RecoverFaults where
  updateFails : Bool := false
  sremFails : Bool := false
deriving DecidableEq, Repr

/-- The `updates` object built by `_recoverAccount`: re-admit the account,
clearing the three diagnostic fields (`null` in the source, i.e. absent)
and stamping both recovery timestamps. -/
def recoverUpdates (now : String) : AccountUpdates :=
  { schedulable := some true
    autoDisabledAt := some none
    autoDisabledReason := some none
    autoDisabledDetails := some none
    lastAutoRecoveryAttempt := some (some now)
    autoRecoveredAt := some (some now) }

/-- `_recoverAccount(accountId, accountType)` (autoRecoveryService.js
lines 640-660): update the record via `_updateAccountByType`, then
`client.srem` the id from the index.  Returns the state plus `some msg`
when an exception propagates (the state keeps writes already applied). -/
def _recoverAccount (f : RecoverFaults) (st : SysState)
    (accountId accountType now : String) : SysState × Option String :=
  match _updateAccountByType f.updateFails st accountId accountType
      (recoverUpdates now) with
  | .error m => (st, some m)
  | .ok st1 =>
    if f.sremFails then (st1, some "srem failed")
    else (srem st1 accountType accountId, none)

/-- Per-account fault-and-probe environment for one recovery cycle. -/
structure AccountOracle where
  getThrows : Bool := false
  updateAttemptThrows : Bool := false
  testSuccess : Bool := false
  recoverFaults : RecoverFaults := {}
  cleanupSremThrows : Bool := false
deriving DecidableEq, Repr

/-- `_validateAccountData(accountId, accountType)` (lines 496-523): fetch
the record; a missing record, a record missing a truthy `autoDisabledAt`
or `autoDisabledReason`, or ANY exception thrown while fetching (unknown
type from `_getAccountByType`, or record-store unavailability) makes it
return false -- the outer try/catch swallows the error. -/
def _validateAccountData (o : AccountOracle) (st : SysState)
    (accountId accountType : String) : Bool :=
  if ¬ isKnownType accountType then false
  else if o.getThrows then false
  else
    match st.records accountType accountId with
    | none => false
    | some a => jsTruthy a.autoDisabledAt && jsTruthy a.autoDisabledReason

/-- `_cleanupInconsistentAccount(accountId, accountType)` (lines 528-545):
`client.srem` the id from the index; its own try/catch swallows any
failure, so the call never throws and on failure the index is simply left
as it was. -/
def _cleanupInconsistentAccount (o : AccountOracle) (st : SysState)
    (accountId accountType : String) : SysState :=
  if o.cleanupSremThrows then st else srem st accountType accountId

/-- `_testAccountConnection(accountId, accountType)` (lines 576-599):
only `claude-console` and `bedrock` have probes; every other type reports
`Test not implemented` (success = false); a probe exception is caught
inside and reported as failure.  The oracle supplies the probe outcome. -/
def _testAccountConnection (o : AccountOracle) (accountType : String) : Bool :=
  if accountType = "claude-console" ∨ accountType = "bedrock" then o.testSuccess
  else false

/-- Outcome of the loop body of `checkAccountType` for one account:
each enumerated id ends in exactly one of these buckets. -/
inductive Outcome where
  | recoveredO
  | failedO
  | cleanedO
deriving DecidableEq, Repr

/-- Per-type counters returned by `checkAccountType`. -/
structure TypeResult where
  checked : Nat
  recovered : Nat
  failed : Nat
  cleaned : Nat
deriving DecidableEq, Repr

/-- Add one account's outcome into the counters (`checked` counts every
enumerated id; `recovered++` / `failed++` / `cleaned++` as in the loop). -/
def tally (o : Outcome) (r : TypeResult) : TypeResult :=
  { checked := r.checked + 1
    recovered := r.recovered + (if o = .recoveredO then 1 else 0)
    failed := r.failed + (if o = .failedO then 1 else 0)
    cleaned := r.cleaned + (if o = .cleanedO then 1 else 0) }

/-- The body of the per-account loop of `checkAccountType` (lines 452-488):
validate (invalid data is cleaned up and counted `cleaned`); stamp
`lastAutoRecoveryAttempt`; probe; on success run `_recoverAccount`.  Any
exception thrown by the stamp or the recovery is caught by the loop's
try/catch and counted `failed`. -/
def processAccount (env : String → AccountOracle) (st : SysState)
    (accountType accountId now : String) : SysState × Outcome :=
  if ¬ _validateAccountData (env accountId) st accountId accountType then
    (_cleanupInconsistentAccount (env accountId) st accountId accountType, .cleanedO)
  else if (env accountId).updateAttemptThrows then (st, .failedO)
  else if _testAccountConnection (env accountId) accountType then
    match _recoverAccount (env accountId).recoverFaults
        (updateRecord st accountType accountId
          { lastAutoRecoveryAttempt := some (some now) })
        accountId accountType now with
    | (st2, none) => (st2, .recoveredO)
    | (st2, some _) => (st2, .failedO)
  else
    (updateRecord st accountType accountId
      { lastAutoRecoveryAttempt := some (some now) }, .failedO)

/-- The per-account loop of `checkAccountType` over the enumerated ids,
accumulating counters. -/
def processList (env : String → AccountOracle) (st : SysState)
    (accountType now : String) : List String → SysState × TypeResult
  | [] => (st, ⟨0, 0, 0, 0⟩)
  | id :: rest =>
    let p := processAccount env st accountType id now
    let q := processList env p.1 accountType now rest
    (q.1, tally p.2 q.2)

/-- Per-type fault environment: `smembersThrows` models the index
enumeration (or `getClientSafe`) throwing, which propagates out of
`checkAccountType` to the per-type catch in `runRecoveryCheck`. -/
structure TypeOracle where
  smembersThrows : Bool := false
  acct : String → AccountOracle

/-- `checkAccountType(accountType)` (lines 438-491): enumerate the index
for the type and run the per-account loop; `none` models the call
throwing before the loop starts. -/
def checkAccountType (tOracle : TypeOracle) (st : SysState)
    (accountType now : String) : SysState × Option TypeResult :=
  if tOracle.smembersThrows then (st, none)
  else
    let p := processList tOracle.acct st accountType now (st.index accountType)
    (p.1, some p.2)

/-- Aggregate counters returned by `runRecoveryCheck` (duration omitted). -/
structure Totals where
  totalChecked : Nat
  totalRecovered : Nat
  totalFailed : Nat
  totalCleaned : Nat
deriving DecidableEq, Repr

/-- The per-type loop of `runRecoveryCheck`: each type's
`checkAccountType` runs inside try/catch; a type that throws contributes
nothing and the remaining types are still processed. -/
def runTypes (tenv : String → TypeOracle) (st : SysState) (now : String) :
    List String → SysState × Totals
  | [] => (st, ⟨0, 0, 0, 0⟩)
  | ty :: rest =>
    match checkAccountType (tenv ty) st ty now with
    | (st1, none) => runTypes tenv st1 now rest
    | (st1, some r) =>
      ((runTypes tenv st1 now rest).1,
       ⟨(runTypes tenv st1 now rest).2.totalChecked + r.checked,
        (runTypes tenv st1 now rest).2.totalRecovered + r.recovered,
        (runTypes tenv st1 now rest).2.totalFailed + r.failed,
        (runTypes tenv st1 now rest).2.totalCleaned + r.cleaned⟩)

/-- `runRecoveryCheck()` (lines 391-433): process the eight provider types
in order, summing per-type counters; per-type errors are contained, so the
function always returns totals (it never raises to its caller). -/
def runRecoveryCheck (tenv : String → TypeOracle) (st : SysState)
    (now : String) : SysState × Totals :=
  runTypes tenv st now accountTypes

/-- Fault environment for one `recoverAccountFromTest` call. -/
structure ManualFaults where
  sIsMemberThrows : Bool := false
  recoverFaults : RecoverFaults := {}
deriving DecidableEq, Repr

/-- Return shape of `recoverAccountFromTest`:
`\x7b recovered, reason, error? \x7d`. -/
structure RecoverResult where
  recovered : Bool
  reason : String
  error : Option String := none
deriving DecidableEq, Repr

/-- `recoverAccountFromTest(accountId, accountType)` (lines 610-635):
check index membership first; if absent return `not_auto_disabled` without
touching the record; otherwise run `_recoverAccount`.  The surrounding
try/catch reports any exception as `\x7b recovered: false,
reason: 'error' \x7d`. -/
def recoverAccountFromTest (f : ManualFaults) (st : SysState)
    (accountId accountType now : String) : SysState × RecoverResult :=
  if f.sIsMemberThrows then
    (st, { recovered := false, reason := "error", error := some "sIsMember failed" })
  else if accountId ∈ st.index accountType then
    match _recoverAccount f.recoverFaults st accountId accountType now with
    | (st1, none) => (st1, { recovered := true, reason := "test_success" })
    | (st1, some m) =>
      (st1, { recovered := false, reason := "error", error := some m })
  else
    (st, { recovered := false, reason := "not_auto_disabled" })

/-- The `autoRecovery` configuration block (`config.autoRecovery`), each
option possibly absent. -/
structure AutoRecoveryConfig where
  enabled : Option Bool := none
  intervalMinutes : Option Nat := none
  testTimeoutSeconds : Option Nat := none
deriving DecidableEq, Repr

/-- `this.testInterval` from the constructor:
`(config.autoRecovery?.intervalMinutes || 60) * 60 * 1000` -- a missing or
zero (falsy) setting falls back to 60 minutes, in milliseconds. -/
def testIntervalMs (cfg : AutoRecoveryConfig) : Nat :=
  (match cfg.intervalMinutes with
   | none => 60
   | some 0 => 60
   | some n => n) * 60 * 1000

/-- The service's singleton lifecycle state: `isRunning` plus the timer
handle (modelled as the armed interval in milliseconds when present). -/
structure ServiceState where
  isRunning : Bool
  intervalHandle : Option Nat
deriving DecidableEq, Repr

/-- Background work launched (fire-and-forget, not awaited) by `start()`. -/
inductive LaunchedWork where
  | noWork
  | cleanupThenCycle
deriving DecidableEq, Repr

/-- How many full recovery cycles a launched background job performs. -/
def cyclesLaunched : LaunchedWork → Nat
  | .noWork => 0
  | .cleanupThenCycle => 1

/-- What a `start()` call did. -/
inductive StartAction where
  | alreadyRunning
  | disabledInConfig
  | started (work : LaunchedWork) (interval : Nat)
deriving DecidableEq, Repr

/-- `start()` (lines 280-313): no-op if already running; no-op if
`config.autoRecovery?.enabled === false`; otherwise mark running, launch
the initial cleanup followed by one recovery cycle (not awaited), and arm
the repeating timer at `testInterval`. -/
def start (cfg : AutoRecoveryConfig) (s : ServiceState) :
    ServiceState × StartAction :=
  if s.isRunning then (s, .alreadyRunning)
  else if cfg.enabled = some false then (s, .disabledInConfig)
  else
    ({ isRunning := true, intervalHandle := some (testIntervalMs cfg) },
     .started .cleanupThenCycle (testIntervalMs cfg))

/-- `stop()` (lines 379-386): clear the timer handle if armed and mark not
running; total, hence safe to call in any state. -/
def stop (s : ServiceState) : ServiceState :=
  { s with isRunning := false, intervalHandle := none }

/-! ### Basic state lemmas -/

theorem srem_records (st : SysState) (ty id : String) :
    (srem st ty id).records = st.records := rfl

theorem sadd_records (st : SysState) (ty id : String) :
    (sadd st ty id).records = st.records := rfl

theorem updateRecord_index (st : SysState) (ty id : String) (u : AccountUpdates) :
    (updateRecord st ty id u).index = st.index := rfl

theorem updateRecord_records_self (st : SysState) (ty id : String) (u : AccountUpdates) :
    (updateRecord st ty id u).records ty id = (st.records ty id).map (applyUpdates u) := by
  simp [updateRecord]

theorem updateRecord_records_ne (st : SysState) (ty x : String) (u : AccountUpdates)
    (id : String) (hx : x ≠ id) :
    (updateRecord st ty x u).records ty id = st.records ty id := by
  simp only [updateRecord]
  rw [if_neg]
  rintro ⟨-, h⟩
  exact hx h.symm

theorem srem_index_self (st : SysState) (ty id : String) :
    id ∉ (srem st ty id).index ty := by
  simp [srem]

theorem srem_index_ne (st : SysState) (ty x id : String) (h : x ≠ id) :
    (id ∈ (srem st ty x).index ty) ↔ id ∈ st.index ty := by
  simp [srem, Ne.symm h]

theorem srem_index_sub (st : SysState) (ty x id : String) :
    id ∈ (srem st ty x).index ty → id ∈ st.index ty := by
  intro h
  simp [srem] at h
  exact h.1

theorem sadd_index_self (st : SysState) (ty id : String) :
    id ∈ (sadd st ty id).index ty := by
  simp only [sadd, if_true, eq_self_iff_true]
  by_cases h : id ∈ st.index ty
  · rw [if_pos h]; exact h
  · rw [if_neg h]; simp

/-! ### Claim theorems: disable path -/

/-- A healthy account record used in concrete scenarios. -/
def baseAcct : Account :=
  { schedulable := true, autoDisabledAt := none, autoDisabledReason := none
    autoDisabledDetails := none, lastAutoRecoveryAttempt := none
    autoRecoveredAt := none }

/-- A properly quarantined account record used in concrete scenarios. -/
def quarantinedAcct : Account :=
  { schedulable := false, autoDisabledAt := some "2026-01-15T12:00:00Z"
    autoDisabledReason := some "HTTP 500: boom", autoDisabledDetails := none
    lastAutoRecoveryAttempt := none, autoRecoveredAt := none }

/-- Concrete state: healthy record for `claude-console`/`X`, empty index. -/
def exSt : SysState :=
  { records := fun t i => if t = "claude-console" ∧ i = "X" then some baseAcct else none
    index := fun _ => [] }

/-- Concrete state: quarantined record for `claude-console`/`a`, which is
in the index. -/
def exStQ : SysState :=
  { records := fun t i => if t = "claude-console" ∧ i = "a" then some quarantinedAcct else none
    index := fun t => if t = "claude-console" then ["a"] else [] }

/-- Concrete state: `Y` is in the `claude-console` index but has no
record at all. -/
def exStBad : SysState :=
  { records := fun _ _ => none
    index := fun t => if t = "claude-console" then ["Y"] else [] }

/-- Claim C1 counterexample: `handleErrorResponse` with qualifying status
code 404 but an unrecognized provider type mutates neither the record
store nor the index and does not disable, refuting "for every statusCode
inside 400-599 it always mutates both the record and the index". -/
theorem c1_counterexample :
    (handleErrorResponse {} exSt "a" "bogus" 404 "boom" "u" "request" "t0").1 = exSt ∧
    "a" ∉ exSt.index "bogus" ∧
    (handleErrorResponse {} exSt "a" "bogus" 404 "boom" "u" "request" "t0").2.disabled
      = false := by
  refine ⟨rfl, ?_, rfl⟩
  simp [exSt]

/-- Claim C1 (amended): with a statusCode outside 400-599,
`handleErrorResponse` performs no write at all and returns not-disabled;
with a statusCode inside 400-599, a recognized provider type, an existing
record and fault-free stores, it always writes the record and adds the id
to the index. -/
theorem c1_status_gating (f : DisableFaults) (st : SysState)
    (id ty : String) (code : Nat) (msg url trig now : String) :
    (code < 400 ∨ 600 ≤ code →
      handleErrorResponse f st id ty code msg url trig now
        = (st, { disabled := false })) ∧
    (400 ≤ code → code < 600 → isKnownType ty = true →
      ∀ a, st.records ty id = some a →
      (handleErrorResponse {} st id ty code msg url trig now).1.records ty id
          = some (applyUpdates (disableUpdates code msg url trig now) a) ∧
        id ∈ (handleErrorResponse {} st id ty code msg url trig now).1.index ty ∧
        (handleErrorResponse {} st id ty code msg url trig now).2.disabled = true) := by
  constructor
  · intro hgate
    simp [handleErrorResponse, handleErrorResponseRaw, if_pos hgate]
  · intro h4 h6 hty a ha
    have hgate : ¬ (code < 400 ∨ 600 ≤ code) := by omega
    simp only [handleErrorResponse, handleErrorResponseRaw, if_neg hgate,
      _updateAccountByType, hty, if_true, Bool.false_eq_true, if_false]
    refine ⟨?_, sadd_index_self _ _ _, by trivial⟩
    rw [sadd_records, updateRecord_records_self, ha]
    rfl

/-- Claim C1 witness: the amended theorem instantiated at a 200 no-op and
at Scenario A's 404 on `claude-console`/`X`. -/
theorem c1_witness :
    handleErrorResponse {} exSt "X" "claude-console" 200 "ok" "u" "request" "t0"
      = (exSt, { disabled := false }) ∧
    ("X" ∈ (handleErrorResponse {} exSt "X" "claude-console" 404 "not found" "u"
        "request" "t0").1.index "claude-console" ∧
      (handleErrorResponse {} exSt "X" "claude-console" 404 "not found" "u"
        "request" "t0").2.disabled = true) := by
  refine ⟨(c1_status_gating {} exSt "X" "claude-console" 200 "ok" "u" "request" "t0").1
      (by decide), ?_⟩
  have h := (c1_status_gating {} exSt "X" "claude-console" 404 "not found" "u"
      "request" "t0").2 (by decide) (by decide) (by decide) baseAcct (by rfl)
  exact ⟨h.2.1, h.2.2⟩

/-- Claim C5: on a qualifying status code with a recognized type and
fault-free stores, `handleErrorResponse` writes `schedulable=false`,
`autoDisabledAt=now`, `autoDisabledReason = "HTTP <code>: <msg take 200>"`,
the structured details, and adds the id to the index, returning disabled
with the reason string. -/
theorem c5_disable_writes (st : SysState) (id ty : String) (code : Nat)
    (msg url trig now : String) (a : Account)
    (h4 : 400 ≤ code) (h6 : code < 600) (hty : isKnownType ty = true)
    (ha : st.records ty id = some a) :
    (handleErrorResponse {} st id ty code msg url trig now).1.records ty id
      = some { a with
          schedulable := false
          autoDisabledAt := some now
          autoDisabledReason := some ("HTTP " ++ toString code ++ ": " ++ msg.take 200)
          autoDisabledDetails := some ⟨code, msg, url, trig, now⟩ } ∧
    id ∈ (handleErrorResponse {} st id ty code msg url trig now).1.index ty ∧
    (handleErrorResponse {} st id ty code msg url trig now).2
      = { disabled := true, reason := some (disableReason code msg) } := by
  have hgate : ¬ (code < 400 ∨ 600 ≤ code) := by omega
  simp only [handleErrorResponse, handleErrorResponseRaw, if_neg hgate,
    _updateAccountByType, hty, if_true, Bool.false_eq_true, if_false]
  refine ⟨?_, sadd_index_self _ _ _, by trivial⟩
  rw [sadd_records, updateRecord_records_self, ha]
  rfl

set_option maxRecDepth 4000 in
/-- Claim C5 witness: Scenario A -- a 404 with message `not found` on
`claude-console`/`X` yields reason `HTTP 404: not found`, the record
write, and index membership. -/
theorem c5_witness :
    (handleErrorResponse {} exSt "X" "claude-console" 404 "not found" "u"
        "request" "t0").2
      = { disabled := true, reason := some "HTTP 404: not found" } ∧
    "X" ∈ (handleErrorResponse {} exSt "X" "claude-console" 404 "not found" "u"
        "request" "t0").1.index "claude-console" := by
  have h := c5_disable_writes exSt "X" "claude-console" 404 "not found" "u"
    "request" "t0" baseAcct (by decide) (by decide) (by decide) (by rfl)
  refine ⟨?_, h.2.1⟩
  have hr : disableReason 404 "not found" = "HTTP 404: not found" := rfl
  rw [h.2.2, hr]

/-- Claim C8: an unrecognized provider type never mutates state (the
dispatch throws before any write), and on a qualifying status code the
call is an input error: the design version throws `Unknown account type`
and the plan version reports it as a failed disable. -/
theorem c8_unknown_type (f : DisableFaults) (st : SysState) (id ty : String)
    (code : Nat) (msg url trig now : String) (hty : isKnownType ty = false) :
    (handleErrorResponse f st id ty code msg url trig now).1 = st ∧
    (400 ≤ code → code < 600 →
      handleErrorResponseRaw f st id ty code msg url trig now
        = (st, .thrown ("Unknown account type: " ++ ty)) ∧
      (handleErrorResponse f st id ty code msg url trig now).2
        = { disabled := false, error := some ("Unknown account type: " ++ ty) }) := by
  by_cases hgate : code < 400 ∨ 600 ≤ code
  · refine ⟨?_, fun h4 h6 => absurd hgate (by omega)⟩
    simp [handleErrorResponse, handleErrorResponseRaw, if_pos hgate]
  · refine ⟨?_, fun _ _ => ⟨?_, ?_⟩⟩ <;>
      simp [handleErrorResponse, handleErrorResponseRaw, if_neg hgate,
        _updateAccountByType, hty]

set_option maxRecDepth 4000 in
/-- Claim C8 witness: a 503 for an unknown type `bogus` leaves the state
untouched and reports the input error. -/
theorem c8_witness :
    (handleErrorResponse {} exSt "a" "bogus" 503 "x" "u" "test" "t1").1 = exSt ∧
    (handleErrorResponse {} exSt "a" "bogus" 503 "x" "u" "test" "t1").2
      = { disabled := false, error := some ("Unknown account type: " ++ "bogus") } := by
  have h := c8_unknown_type {} exSt "a" "bogus" 503 "x" "u" "test" "t1" (by decide)
  exact ⟨h.1, (h.2 (by decide) (by decide)).2⟩

set_option maxRecDepth 4000 in
/-- Claim C6 counterexample: when the index add fails after the record
update committed (the record shows the disable write), the disable path
reports `disabled: false` -- not success as the claim states. -/
theorem c6_counterexample :
    (handleErrorResponse { updateFails := false, saddFails := true } exSt "X"
        "claude-console" 404 "boom" "u" "request" "t0").2.disabled = false ∧
    (handleErrorResponse { updateFails := false, saddFails := true } exSt "X"
        "claude-console" 404 "boom" "u" "request" "t0").1.records "claude-console" "X"
      = some (applyUpdates (disableUpdates 404 "boom" "u" "request" "t0") baseAcct) := by
  exact ⟨rfl, rfl⟩

/-- Claim C6 (amended): in both the disable path and the re-admission
path, the record update is applied before the index operation is
attempted -- if the index operation fails, the record write is already in
place and the index untouched, and if the record update fails, nothing is
written -- but a disable call whose index add fails reports a failed
disable (design version: the exception propagates), not success. -/
theorem c6_ordering (st : SysState) (id ty : String) (code : Nat)
    (msg url trig now : String) (a : Account)
    (h4 : 400 ≤ code) (h6 : code < 600) (hty : isKnownType ty = true)
    (ha : st.records ty id = some a) :
    ((handleErrorResponseRaw { updateFails := false, saddFails := true } st id ty
          code msg url trig now).1.records ty id
        = some (applyUpdates (disableUpdates code msg url trig now) a) ∧
      (handleErrorResponseRaw { updateFails := false, saddFails := true } st id ty
          code msg url trig now).1.index = st.index ∧
      (handleErrorResponseRaw { updateFails := false, saddFails := true } st id ty
          code msg url trig now).2 = .thrown "sadd failed" ∧
      (handleErrorResponse { updateFails := false, saddFails := true } st id ty
          code msg url trig now).2
        = { disabled := false, error := some "sadd failed" }) ∧
    ((_recoverAccount { updateFails := false, sremFails := true } st id ty now).1.records ty id
        = some (applyUpdates (recoverUpdates now) a) ∧
      (_recoverAccount { updateFails := false, sremFails := true } st id ty now).1.index
        = st.index ∧
      (_recoverAccount { updateFails := false, sremFails := true } st id ty now).2
        = some "srem failed") ∧
    ((handleErrorResponseRaw { updateFails := true, saddFails := false } st id ty
          code msg url trig now).1 = st ∧
      (_recoverAccount { updateFails := true, sremFails := false } st id ty now).1 = st) := by
  have hgate : ¬ (code < 400 ∨ 600 ≤ code) := by omega
  have hrawS : handleErrorResponseRaw { updateFails := false, saddFails := true } st id ty
      code msg url trig now
      = (updateRecord st ty id (disableUpdates code msg url trig now),
         .thrown "sadd failed") := by
    simp [handleErrorResponseRaw, if_neg hgate, _updateAccountByType, hty]
  have hrecS : _recoverAccount { updateFails := false, sremFails := true } st id ty now
      = (updateRecord st ty id (recoverUpdates now), some "srem failed") := by
    simp [_recoverAccount, _updateAccountByType, hty]
  refine ⟨⟨?_, ?_, ?_, ?_⟩, ⟨?_, ?_, ?_⟩, ?_, ?_⟩
  · rw [hrawS, updateRecord_records_self, ha]; rfl
  · rw [hrawS, updateRecord_index]
  · rw [hrawS]
  · simp [handleErrorResponse, hrawS]
  · rw [hrecS, updateRecord_records_self, ha]; rfl
  · rw [hrecS, updateRecord_index]
  · rw [hrecS]
  · simp [handleErrorResponseRaw, if_neg hgate, _updateAccountByType, hty]
  · simp [_recoverAccount, _updateAccountByType, hty]

set_option maxRecDepth 4000 in
/-- Claim C6 witness: the amended ordering theorem at Scenario A's
account with a failing index add. -/
theorem c6_witness :
    (handleErrorResponseRaw { updateFails := false, saddFails := true } exSt "X"
        "claude-console" 404 "boom" "u" "request" "t0").1.index = exSt.index ∧
    (handleErrorResponse { updateFails := false, saddFails := true } exSt "X"
        "claude-console" 404 "boom" "u" "request" "t0").2
      = { disabled := false, error := some "sadd failed" } := by
  have h := c6_ordering exSt "X" "claude-console" 404 "boom" "u" "request" "t0"
    baseAcct (by decide) (by decide) (by decide) rfl
  exact ⟨h.1.2.1, h.1.2.2.2⟩

/-- The record value left by a successful re-admission. -/
def recoveredAcct (now : String) : Account :=
  { schedulable := true, autoDisabledAt := none, autoDisabledReason := none
    autoDisabledDetails := none, lastAutoRecoveryAttempt := some now
    autoRecoveredAt := some now }

/-- Claim C2: a successful `_recoverAccount` (also when reached through
the manual path `recoverAccountFromTest`) leaves `autoDisabledAt`,
`autoDisabledReason`, `autoDisabledDetails` absent, `schedulable=true`,
both recovery timestamps set to now, and the id out of the index. -/
theorem c2_recover_clears (st : SysState) (id ty now : String) (a : Account)
    (hty : isKnownType ty = true) (ha : st.records ty id = some a) :
    ((_recoverAccount {} st id ty now).2 = none ∧
      (_recoverAccount {} st id ty now).1.records ty id = some (recoveredAcct now) ∧
      id ∉ (_recoverAccount {} st id ty now).1.index ty) ∧
    (id ∈ st.index ty →
      (recoverAccountFromTest {} st id ty now).2
        = { recovered := true, reason := "test_success" } ∧
      (recoverAccountFromTest {} st id ty now).1.records ty id
        = some (recoveredAcct now) ∧
      id ∉ (recoverAccountFromTest {} st id ty now).1.index ty) := by
  have hrec : _recoverAccount {} st id ty now
      = (srem (updateRecord st ty id (recoverUpdates now)) ty id, none) := by
    simp [_recoverAccount, _updateAccountByType, hty]
  have hrecrd : (srem (updateRecord st ty id (recoverUpdates now)) ty id).records ty id
      = some (recoveredAcct now) := by
    rw [srem_records, updateRecord_records_self, ha]
    rfl
  have hnot : id ∉ (srem (updateRecord st ty id (recoverUpdates now)) ty id).index ty :=
    srem_index_self _ _ _
  refine ⟨⟨by rw [hrec], by rw [hrec]; exact hrecrd, by rw [hrec]; exact hnot⟩, ?_⟩
  intro hmem
  have hman : recoverAccountFromTest {} st id ty now
      = (srem (updateRecord st ty id (recoverUpdates now)) ty id,
         { recovered := true, reason := "test_success" }) := by
    simp [recoverAccountFromTest, hmem, hrec]
  exact ⟨by rw [hman], by rw [hman]; exact hrecrd, by rw [hman]; exact hnot⟩

set_option maxRecDepth 4000 in
/-- Claim C2 witness: Scenario B -- the quarantined account `a` recovered
through the manual path ends healthy and out of the index. -/
theorem c2_witness :
    (recoverAccountFromTest {} exStQ "a" "claude-console" "t9").2
      = { recovered := true, reason := "test_success" } ∧
    (recoverAccountFromTest {} exStQ "a" "claude-console" "t9").1.records
        "claude-console" "a" = some (recoveredAcct "t9") ∧
    "a" ∉ (recoverAccountFromTest {} exStQ "a" "claude-console" "t9").1.index
        "claude-console" := by
  exact (c2_recover_clears exStQ "a" "claude-console" "t9" quarantinedAcct
    (by decide) rfl).2 (by simp [exStQ])

/-- Claim C4: for an account not in the index for its type (and a live
index read), `recoverAccountFromTest` returns `not_auto_disabled` and the
whole state -- in particular the account record -- is exactly unchanged. -/
theorem c4_manual_narrow (f : ManualFaults) (st : SysState) (id ty now : String)
    (hf : f.sIsMemberThrows = false) (hmem : id ∉ st.index ty) :
    recoverAccountFromTest f st id ty now
      = (st, { recovered := false, reason := "not_auto_disabled" }) := by
  simp [recoverAccountFromTest, hf, hmem]

set_option maxRecDepth 4000 in
/-- Claim C4 witness: Scenario D -- account `X` is not in the index; the
manual path returns not-applicable and the state is unchanged. -/
theorem c4_witness :
    recoverAccountFromTest {} exSt "X" "claude-console" "t9"
      = (exSt, { recovered := false, reason := "not_auto_disabled" }) := by
  exact c4_manual_narrow {} exSt "X" "claude-console" "t9" rfl (by simp [exSt])

/-! ### Recovery-cycle loop lemmas -/

/-- A record state that `_validateAccountData` treats as inconsistent:
absent, or missing a truthy `autoDisabledAt` or `autoDisabledReason`. -/
def badAcct : Option Account → Bool
  | none => true
  | some a => !(jsTruthy a.autoDisabledAt && jsTruthy a.autoDisabledReason)

theorem validate_false_of_bad (o : AccountOracle) (st : SysState)
    (id ty : String) (h : badAcct (st.records ty id) = true) :
    _validateAccountData o st id ty = false := by
  unfold _validateAccountData
  by_cases h1 : isKnownType ty
  · by_cases h2 : o.getThrows
    · simp [h1, h2]
    · cases hrec : st.records ty id with
      | none => simp [h1, h2, hrec]
      | some a =>
        have h' : (!(jsTruthy a.autoDisabledAt && jsTruthy a.autoDisabledReason))
            = true := by rw [hrec] at h; exact h
        simp only [h1, h2, hrec, not_true, if_false, Bool.false_eq_true]
        simp only [Bool.not_eq_true'] at h'
        exact h'
  · simp [h1]

theorem validate_false_of_getThrows (o : AccountOracle) (st : SysState)
    (id ty : String) (h : o.getThrows = true) :
    _validateAccountData o st id ty = false := by
  unfold _validateAccountData
  by_cases h1 : isKnownType ty <;> simp [h1, h]

theorem validate_known (o : AccountOracle) (st : SysState) (id ty : String)
    (h : _validateAccountData o st id ty = true) : isKnownType ty = true := by
  by_contra hk
  rw [_validateAccountData] at h
  simp only [Bool.not_eq_true] at hk
  simp [hk] at h

theorem srem_index_notMem (st : SysState) (ty x id : String)
    (h : id ∉ st.index ty) : id ∉ (srem st ty x).index ty :=
  fun hm => h (srem_index_sub st ty x id hm)

theorem _recoverAccount_throws (f : RecoverFaults) (st : SysState)
    (x ty now : String) (h : f.updateFails = true ∨ f.sremFails = true) :
    ∃ m, (_recoverAccount f st x ty now).2 = some m := by
  unfold _recoverAccount _updateAccountByType
  by_cases h1 : isKnownType ty
  · rcases h with h2 | h2
    · simp [h1, h2]
    · by_cases h3 : f.updateFails <;> simp [h1, h2, h3]
  · simp [h1]

theorem recoverMatch_fst (p : SysState × Option String) :
    (match p with
     | (st2, none) => (st2, Outcome.recoveredO)
     | (st2, some _) => (st2, Outcome.failedO)).1 = p.1 := by
  rcases p with ⟨s, _ | _⟩ <;> rfl

theorem _recoverAccount_shape (f : RecoverFaults) (st : SysState)
    (x ty now : String) :
    (_recoverAccount f st x ty now).1 = st ∨
    (_recoverAccount f st x ty now).1 = updateRecord st ty x (recoverUpdates now) ∨
    (_recoverAccount f st x ty now).1
      = srem (updateRecord st ty x (recoverUpdates now)) ty x := by
  unfold _recoverAccount _updateAccountByType
  by_cases h1 : isKnownType ty
  · by_cases h2 : f.updateFails
    · simp [h1, h2]
    · by_cases h3 : f.sremFails <;> simp [h1, h2, h3]
  · simp [h1]

theorem processAccount_records_frame (env : String → AccountOracle)
    (st : SysState) (ty x now id : String) (hx : x ≠ id) :
    (processAccount env st ty x now).1.records ty id = st.records ty id := by
  unfold processAccount
  split
  · unfold _cleanupInconsistentAccount
    split
    · rfl
    · rw [srem_records]
  · split
    · rfl
    · split
      · rw [recoverMatch_fst]
        rcases _recoverAccount_shape (env x).recoverFaults
            (updateRecord st ty x { lastAutoRecoveryAttempt := some (some now) })
            x ty now with h | h | h <;> rw [h]
        · exact updateRecord_records_ne st ty x _ id hx
        · rw [updateRecord_records_ne _ ty x _ id hx,
            updateRecord_records_ne st ty x _ id hx]
        · rw [srem_records, updateRecord_records_ne _ ty x _ id hx,
            updateRecord_records_ne st ty x _ id hx]
      · exact updateRecord_records_ne st ty x _ id hx

theorem processAccount_notMem (env : String → AccountOracle) (st : SysState)
    (ty x now id : String) (h : id ∉ st.index ty) :
    id ∉ (processAccount env st ty x now).1.index ty := by
  unfold processAccount
  split
  · unfold _cleanupInconsistentAccount
    split
    · exact h
    · exact srem_index_notMem st ty x id h
  · split
    · exact h
    · split
      · rw [recoverMatch_fst]
        rcases _recoverAccount_shape (env x).recoverFaults
            (updateRecord st ty x { lastAutoRecoveryAttempt := some (some now) })
            x ty now with hs | hs | hs <;> rw [hs]
        · exact h
        · exact h
        · exact srem_index_notMem _ ty x id h
      · exact h

theorem processAccount_index_frame (env : String → AccountOracle)
    (st : SysState) (ty x now id : String) (hx : x ≠ id) :
    (id ∈ (processAccount env st ty x now).1.index ty) ↔ id ∈ st.index ty := by
  unfold processAccount
  split
  · unfold _cleanupInconsistentAccount
    split
    · exact Iff.rfl
    · exact srem_index_ne st ty x id hx
  · split
    · exact Iff.rfl
    · split
      · rw [recoverMatch_fst]
        rcases _recoverAccount_shape (env x).recoverFaults
            (updateRecord st ty x { lastAutoRecoveryAttempt := some (some now) })
            x ty now with hs | hs | hs <;> rw [hs]
        · exact Iff.rfl
        · exact Iff.rfl
        · exact srem_index_ne _ ty x id hx
      · exact Iff.rfl

theorem processAccount_bad (env : String → AccountOracle) (st : SysState)
    (ty id now : String) (hb : badAcct (st.records ty id) = true)
    (hc : (env id).cleanupSremThrows = false) :
    processAccount env st ty id now = (srem st ty id, .cleanedO) := by
  unfold processAccount
  rw [validate_false_of_bad (env id) st id ty hb]
  simp [_cleanupInconsistentAccount, hc]

theorem processList_notMem (env : String → AccountOracle) (ty now id : String) :
    ∀ (ids : List String) (st : SysState), id ∉ st.index ty →
      id ∉ (processList env st ty now ids).1.index ty := by
  intro ids
  induction ids with
  | nil => intro st h; exact h
  | cons x rest ih =>
    intro st h
    exact ih _ (processAccount_notMem env st ty x now id h)

theorem processList_frame (env : String → AccountOracle) (ty now id : String) :
    ∀ (ids : List String) (st : SysState), id ∉ ids →
      (processList env st ty now ids).1.records ty id = st.records ty id ∧
      ((id ∈ (processList env st ty now ids).1.index ty) ↔ id ∈ st.index ty) := by
  intro ids
  induction ids with
  | nil => intro st _; exact ⟨rfl, Iff.rfl⟩
  | cons x rest ih =>
    intro st h
    have hx : x ≠ id := fun he => h (he ▸ List.mem_cons_self x rest)
    have hrest : id ∉ rest := fun hm => h (List.mem_cons_of_mem x hm)
    have ihr := ih (processAccount env st ty x now).1 hrest
    exact ⟨ihr.1.trans (processAccount_records_frame env st ty x now id hx),
      ihr.2.trans (processAccount_index_frame env st ty x now id hx)⟩

theorem tally_checked (o : Outcome) (r : TypeResult) :
    (tally o r).checked = r.checked + 1 := rfl

theorem tally_cleaned_le (o : Outcome) (r : TypeResult) :
    r.cleaned ≤ (tally o r).cleaned := by
  cases o <;> simp [tally]

theorem tally_sum (o : Outcome) (r : TypeResult) :
    (tally o r).recovered + (tally o r).failed + (tally o r).cleaned
      = r.recovered + r.failed + r.cleaned + 1 := by
  cases o <;> simp [tally] <;> omega

theorem processList_checked (env : String → AccountOracle) (ty now : String) :
    ∀ (ids : List String) (st : SysState),
      (processList env st ty now ids).2.checked = ids.length := by
  intro ids
  induction ids with
  | nil => intro st; rfl
  | cons x rest ih =>
    intro st
    rw [show (processList env st ty now (x :: rest)).2
        = tally (processAccount env st ty x now).2
            (processList env (processAccount env st ty x now).1 ty now rest).2
      from rfl]
    rw [tally_checked, ih]
    rfl

theorem processList_counters (env : String → AccountOracle) (ty now : String) :
    ∀ (ids : List String) (st : SysState),
      (processList env st ty now ids).2.checked
        = (processList env st ty now ids).2.recovered
          + (processList env st ty now ids).2.failed
          + (processList env st ty now ids).2.cleaned := by
  intro ids
  induction ids with
  | nil => intro st; rfl
  | cons x rest ih =>
    intro st
    rw [show (processList env st ty now (x :: rest)).2
        = tally (processAccount env st ty x now).2
            (processList env (processAccount env st ty x now).1 ty now rest).2
      from rfl]
    rw [tally_checked, tally_sum, ih]

theorem processList_bad_member (env : String → AccountOracle)
    (ty now id : String) :
    ∀ (ids : List String) (st : SysState), ids.Nodup → id ∈ ids →
      (env id).cleanupSremThrows = false → badAcct (st.records ty id) = true →
      id ∉ (processList env st ty now ids).1.index ty ∧
      (processList env st ty now ids).1.records ty id = st.records ty id ∧
      1 ≤ (processList env st ty now ids).2.cleaned := by
  intro ids
  induction ids with
  | nil => intro st _ hmem; exact absurd hmem (List.not_mem_nil id)
  | cons x rest ih =>
    intro st hnd hmem hc hb
    have hcons :
        processList env st ty now (x :: rest)
          = ((processList env (processAccount env st ty x now).1 ty now rest).1,
             tally (processAccount env st ty x now).2
               (processList env (processAccount env st ty x now).1 ty now rest).2)
        := rfl
    by_cases hx : x = id
    · subst hx
      have hpa := processAccount_bad env st ty x now hb hc
      have hxrest : x ∉ rest := (List.nodup_cons.mp hnd).1
      have hf := processList_frame env ty now x rest (srem st ty x) hxrest
      refine ⟨?_, ?_, ?_⟩
      · rw [hcons]
        rw [hpa]
        exact processList_notMem env ty now x rest (srem st ty x)
          (srem_index_self st ty x)
      · rw [hcons]
        rw [hpa]
        rw [hf.1, srem_records]
      · rw [hcons, hpa]
        simp [tally]
    · have hmem' : id ∈ rest := by
        rcases List.mem_cons.mp hmem with h | h
        · exact absurd h.symm hx
        · exact h
      have hxne : x ≠ id := hx
      have hrf := processAccount_records_frame env st ty x now id hxne
      have hb' : badAcct ((processAccount env st ty x now).1.records ty id) = true := by
        rw [hrf]; exact hb
      have ihr := ih (processAccount env st ty x now).1
        (List.nodup_cons.mp hnd).2 hmem' hc hb'
      refine ⟨?_, ?_, ?_⟩
      · rw [hcons]; exact ihr.1
      · rw [hcons]
        exact ihr.2.1.trans hrf
      · rw [hcons]
        exact le_trans ihr.2.2 (tally_cleaned_le _ _)

/-! ### Lifecycle -/

/-- Claim C9: the lifecycle state machine -- `start` is a no-op when
already running or when disabled by configuration; otherwise it marks
running, launches the initial background job containing exactly one
recovery cycle (fire-and-forget), and arms the timer at the configured
interval, which defaults to 60 minutes; `stop` disarms the timer and
marks not running, and is total (safe from any state, idempotent). -/
theorem c9_lifecycle (cfg : AutoRecoveryConfig) (s : ServiceState) :
    (s.isRunning = true → start cfg s = (s, .alreadyRunning)) ∧
    (s.isRunning = false → cfg.enabled = some false →
      start cfg s = (s, .disabledInConfig)) ∧
    (s.isRunning = false → cfg.enabled ≠ some false →
      start cfg s
          = ({ isRunning := true, intervalHandle := some (testIntervalMs cfg) },
             .started .cleanupThenCycle (testIntervalMs cfg)) ∧
        cyclesLaunched .cleanupThenCycle = 1) ∧
    (cfg.intervalMinutes = none → testIntervalMs cfg = 60 * 60 * 1000) ∧
    (stop s = { isRunning := false, intervalHandle := none } ∧
      stop (stop s) = stop s) := by
  refine ⟨?_, ?_, ?_, ?_, rfl, rfl⟩
  · intro h
    simp [start, h]
  · intro h he
    simp [start, h, he]
  · intro h he
    exact ⟨by simp [start, h, he], rfl⟩
  · intro h
    simp [testIntervalMs, h]

/-- Claim C9 witness: a stopped service with an empty configuration
starts with a 60-minute timer, and stop resets the state. -/
theorem c9_witness :
    start {} { isRunning := false, intervalHandle := none }
      = ({ isRunning := true, intervalHandle := some 3600000 },
         .started .cleanupThenCycle 3600000) ∧
    stop { isRunning := true, intervalHandle := some 3600000 }
      = { isRunning := false, intervalHandle := none } := by
  have h := c9_lifecycle {} { isRunning := false, intervalHandle := none }
  have h3 := (h.2.2.1 rfl (by decide)).1
  have h4 := h.2.2.2.1 rfl
  rw [h4] at h3
  exact ⟨h3,
    (c9_lifecycle {} { isRunning := true, intervalHandle := some 3600000 }).2.2.2.2.1⟩

/-! ### Claims about the recovery cycle -/

/-- All-healthy per-type oracle: no faults anywhere, probes fail (keep
quarantined), used for concrete scenarios. -/
def okType : TypeOracle := { acct := fun _ => {} }

/-- Claim C3: an index member whose record is absent or lacks
`autoDisabledAt`/`autoDisabledReason` is removed from the index by one
`checkAccountType` pass with no write to its record, and its loop
iteration counts as cleaned. -/
theorem c3_cleanup (tOr : TypeOracle) (st : SysState) (ty id now : String)
    (hsm : tOr.smembersThrows = false) (hnd : (st.index ty).Nodup)
    (hmem : id ∈ st.index ty) (hc : (tOr.acct id).cleanupSremThrows = false)
    (hb : badAcct (st.records ty id) = true) :
    id ∉ (checkAccountType tOr st ty now).1.index ty ∧
    (checkAccountType tOr st ty now).1.records ty id = st.records ty id ∧
    (∃ r, (checkAccountType tOr st ty now).2 = some r ∧ 1 ≤ r.cleaned) ∧
    (processAccount tOr.acct st ty id now).2 = .cleanedO := by
  have hck : checkAccountType tOr st ty now
      = ((processList tOr.acct st ty now (st.index ty)).1,
         some (processList tOr.acct st ty now (st.index ty)).2) := by
    simp [checkAccountType, hsm]
  have h := processList_bad_member tOr.acct ty now id (st.index ty) st hnd hmem hc hb
  refine ⟨by rw [hck]; exact h.1, by rw [hck]; exact h.2.1,
    ⟨_, by rw [hck], h.2.2⟩, ?_⟩
  rw [processAccount_bad tOr.acct st ty id now hb hc]

set_option maxRecDepth 8000 in
/-- Claim C3 witness: Scenario C -- `Y` is in the index with no record at
all; one pass removes `Y` from the index, leaves its (absent) record
untouched, and counts one cleaned. -/
theorem c3_witness :
    "Y" ∉ (checkAccountType okType exStBad "claude-console" "t6").1.index
        "claude-console" ∧
    (checkAccountType okType exStBad "claude-console" "t6").1.records
        "claude-console" "Y" = exStBad.records "claude-console" "Y" ∧
    (∃ r, (checkAccountType okType exStBad "claude-console" "t6").2 = some r ∧
      1 ≤ r.cleaned) ∧
    (processAccount okType.acct exStBad "claude-console" "Y" "t6").2
      = .cleanedO := by
  exact c3_cleanup okType exStBad "claude-console" "Y" "t6" rfl
    (by simp [exStBad]) (by simp [exStBad]) rfl rfl

/-- Per-type oracle whose record-store reads throw for every account. -/
def throwingGetOracle : TypeOracle := { acct := fun _ => { getThrows := true } }

set_option maxRecDepth 8000 in
/-- Claim C7 counterexample: a record-store error while fetching account
`a` (whose record is present and fully consistent) is swallowed inside
`_validateAccountData`, so the cycle counts the account as CLEANED
(`failed = 0`) and removes its index entry, instead of counting it as a
failure as the claim states. -/
theorem c7_counterexample :
    exStQ.records "claude-console" "a" = some quarantinedAcct ∧
    jsTruthy quarantinedAcct.autoDisabledAt = true ∧
    jsTruthy quarantinedAcct.autoDisabledReason = true ∧
    (checkAccountType throwingGetOracle exStQ "claude-console" "t5").2
      = some { checked := 1, recovered := 0, failed := 0, cleaned := 1 } ∧
    (checkAccountType throwingGetOracle exStQ "claude-console" "t5").1.index
        "claude-console" = [] := by
  exact ⟨rfl, rfl, rfl, rfl, rfl⟩

/-- Claim C7 (amended): errors while fetching/validating a record are
caught inside validation and the account is treated as inconsistent
(outcome cleaned); errors thrown by the per-account steps after
validation (timestamp update, recovery) are caught by the loop and
counted failed; every enumerated id is processed (checked counts them
all); and a provider type whose index enumeration throws is skipped by
the per-type catch while the remaining types still run. -/
theorem c7_containment (env : String → AccountOracle) (st : SysState)
    (ty id now : String) :
    ((env id).getThrows = true →
      (processAccount env st ty id now).2 = .cleanedO) ∧
    (_validateAccountData (env id) st id ty = true →
      (env id).updateAttemptThrows = true →
      (processAccount env st ty id now).2 = .failedO) ∧
    (_validateAccountData (env id) st id ty = true →
      (env id).updateAttemptThrows = false →
      _testAccountConnection (env id) ty = true →
      ((env id).recoverFaults.updateFails = true ∨
        (env id).recoverFaults.sremFails = true) →
      (processAccount env st ty id now).2 = .failedO) ∧
    (∀ ids : List String, (processList env st ty now ids).2.checked = ids.length) ∧
    (∀ (tenv : String → TypeOracle) (ty2 : String) (tys : List String),
      (tenv ty2).smembersThrows = true →
      runTypes tenv st now (ty2 :: tys) = runTypes tenv st now tys) := by
  refine ⟨?_, ?_, ?_, fun ids => processList_checked env ty now ids st, ?_⟩
  · intro hg
    unfold processAccount
    rw [validate_false_of_getThrows (env id) st id ty hg]
    simp
  · intro hv ht
    unfold processAccount
    rw [hv]
    simp [ht]
  · intro hv ht htest hrf
    unfold processAccount
    rw [hv, ht, htest]
    obtain ⟨m, hm⟩ := _recoverAccount_throws (env id).recoverFaults
      (updateRecord st ty id { lastAutoRecoveryAttempt := some (some now) })
      id ty now hrf
    rcases hp : _recoverAccount (env id).recoverFaults
        (updateRecord st ty id { lastAutoRecoveryAttempt := some (some now) })
        id ty now with ⟨s2, o2⟩
    rw [hp] at hm
    cases o2 with
    | none => simp at hm
    | some m2 => simp [hp]
  · intro tenv ty2 tys h
    have hc : checkAccountType (tenv ty2) st ty2 now = (st, none) := by
      simp [checkAccountType, h]
    rw [runTypes, hc]

set_option maxRecDepth 8000 in
/-- Claim C7 witness: the amended theorem at a stamp-update failure for
the consistent account `a` (counted failed) and at a provider type whose
index enumeration throws (skipped, remaining list still processed). -/
theorem c7_witness :
    (processAccount (fun _ => { updateAttemptThrows := true }) exStQ
        "claude-console" "a" "t7").2 = .failedO ∧
    runTypes (fun _ => { smembersThrows := true, acct := fun _ => {} })
        exStQ "t7" ["gemini"]
      = runTypes (fun _ => { smembersThrows := true, acct := fun _ => {} })
        exStQ "t7" [] := by
  exact ⟨(c7_containment (fun _ => { updateAttemptThrows := true }) exStQ
      "claude-console" "a" "t7").2.1 rfl rfl,
    (c7_containment (fun _ => { updateAttemptThrows := true }) exStQ
      "claude-console" "a" "t7").2.2.2.2
      (fun _ => { smembersThrows := true, acct := fun _ => {} }) "gemini" [] rfl⟩

theorem checkAccountType_counters (tOr : TypeOracle) (st : SysState)
    (ty now : String) (st' : SysState) (r : TypeResult)
    (h : checkAccountType tOr st ty now = (st', some r)) :
    r.checked = r.recovered + r.failed + r.cleaned := by
  rw [checkAccountType] at h
  by_cases hsm : tOr.smembersThrows
  · simp [hsm] at h
  · simp only [hsm, Bool.false_eq_true, if_false] at h
    have h2 : some (processList tOr.acct st ty now (st.index ty)).2 = some r :=
      congrArg Prod.snd h
    have h3 := Option.some.inj h2
    rw [← h3]
    exact processList_counters tOr.acct ty now (st.index ty) st

theorem runTypes_counters (tenv : String → TypeOracle) (now : String) :
    ∀ (tys : List String) (st : SysState),
      (runTypes tenv st now tys).2.totalChecked
        = (runTypes tenv st now tys).2.totalRecovered
          + (runTypes tenv st now tys).2.totalFailed
          + (runTypes tenv st now tys).2.totalCleaned := by
  intro tys
  induction tys with
  | nil => intro st; rfl
  | cons ty rest ih =>
    intro st
    rcases hc : checkAccountType (tenv ty) st ty now with ⟨st1, ro⟩
    cases ro with
    | none =>
      rw [runTypes, hc]
      exact ih st1
    | some r =>
      rw [runTypes, hc]
      have hr := checkAccountType_counters (tenv ty) st ty now st1 r hc
      have hi := ih st1
      simp only []
      omega

/-- Claim C10: per provider type, `checked = recovered + failed + cleaned`
(each enumerated id lands in exactly one bucket); the per-type counters
are added into the running totals type by type; and consequently the
cycle totals satisfy the same identity. -/
theorem c10_counters :
    (∀ (tOr : TypeOracle) (st : SysState) (ty now : String)
        (st' : SysState) (r : TypeResult),
      checkAccountType tOr st ty now = (st', some r) →
      r.checked = r.recovered + r.failed + r.cleaned) ∧
    (∀ (tenv : String → TypeOracle) (st : SysState) (now ty : String)
        (rest : List String) (st' : SysState) (r : TypeResult),
      checkAccountType (tenv ty) st ty now = (st', some r) →
      (runTypes tenv st now (ty :: rest)).2.totalChecked
          = (runTypes tenv st' now rest).2.totalChecked + r.checked ∧
        (runTypes tenv st now (ty :: rest)).2.totalRecovered
          = (runTypes tenv st' now rest).2.totalRecovered + r.recovered ∧
        (runTypes tenv st now (ty :: rest)).2.totalFailed
          = (runTypes tenv st' now rest).2.totalFailed + r.failed ∧
        (runTypes tenv st now (ty :: rest)).2.totalCleaned
          = (runTypes tenv st' now rest).2.totalCleaned + r.cleaned) ∧
    (∀ (tenv : String → TypeOracle) (st : SysState) (now : String),
      (runRecoveryCheck tenv st now).2.totalChecked
        = (runRecoveryCheck tenv st now).2.totalRecovered
          + (runRecoveryCheck tenv st now).2.totalFailed
          + (runRecoveryCheck tenv st now).2.totalCleaned) := by
  refine ⟨checkAccountType_counters, ?_, ?_⟩
  · intro tenv st now ty rest st' r h
    rw [runTypes, h]
    exact ⟨rfl, rfl, rfl, rfl⟩
  · intro tenv st now
    exact runTypes_counters tenv now accountTypes st

set_option maxRecDepth 8000 in
/-- Claim C10 witness: the per-type identity at Scenario C's cleanup run
(one checked, one cleaned) and the cycle-total identity at the same
state. -/
theorem c10_witness :
    (⟨1, 0, 0, 1⟩ : TypeResult).checked
      = (⟨1, 0, 0, 1⟩ : TypeResult).recovered + (⟨1, 0, 0, 1⟩ : TypeResult).failed
        + (⟨1, 0, 0, 1⟩ : TypeResult).cleaned ∧
    (runRecoveryCheck (fun _ => okType) exStBad "t8").2.totalChecked
      = (runRecoveryCheck (fun _ => okType) exStBad "t8").2.totalRecovered
        + (runRecoveryCheck (fun _ => okType) exStBad "t8").2.totalFailed
        + (runRecoveryCheck (fun _ => okType) exStBad "t8").2.totalCleaned := by
  refine ⟨c10_counters.1 okType exStBad "claude-console" "t8"
      (checkAccountType okType exStBad "claude-console" "t8").1 ⟨1, 0, 0, 1⟩ ?_,
    c10_counters.2.2 (fun _ => okType) exStBad "t8"⟩
  rfl

end CRS
